import Mathlib

/-!
Verification of the `Task` work-unit lifecycle from
`python/tk_multi_publish2/processing/task.py`.

The embedding models Python values with an inductive `PyValue` (covering the
values the code branches on by truthiness), Python dictionaries as
association lists (`PyDict`), and a raising Python call as a `PyResult`
paired with the state at the moment the call returns or raises: a Python
exception does not roll back side effects already performed, so partial
state must remain observable.

Plugin and item references are modelled by `Nat` identities (Python's
default object equality, used by `Task.is_same_task_type`, is reference
identity).  The plugin's behaviours (`run_accept`, `run_validate`, ...) are
external collaborators and are passed to the lifecycle operations as
function parameters.
-/

set_option autoImplicit false

namespace Processing

/-- A Python value, as far as the code under study discriminates them:
it branches on truthiness (`if accept_data.get("accepted"):`) and stores
dictionary values verbatim. -/
inductive PyValue where
  | none
  | bool (b : Bool)
  | int (n : Int)
  | str (s : String)
  deriving DecidableEq, Repr

/-- Python truthiness: `None`, `False`, `0` and `""` are falsy; everything
else modelled here is truthy. -/
def PyValue.truthy : PyValue → Bool
  | .none => false
  | .bool b => b
  | .int n => n != 0
  | .str s => s != ""

/-- A Python `dict` with string keys, as an association list (keys are
unique in a real dict; lookup takes the first binding). -/
def PyDict := List (String × PyValue)
  deriving DecidableEq, Repr

/-- `d.get(k)` with no default: `some v` when the key is bound, `none`
(Python `None`) when absent. -/
def PyDict.get (d : PyDict) (k : String) : Option PyValue :=
  (List.find? (fun p => p.1 == k) d).map (fun p => p.2)

/-- `d.get(k, default)`: the bound value when the key is present, else the
default. -/
def PyDict.getD (d : PyDict) (k : String) (default : PyValue) : PyValue :=
  (PyDict.get d k).getD default

/-- Outcome of a Python call that can raise: a value, or an exception
carrying a message.  Exceptions do not undo side effects, so stateful
operations return a `PyResult` paired with the state at the moment of
return or raise. -/
inductive PyResult (α : Type) where
  | ok (a : α)
  | exn (msg : String)
  deriving DecidableEq, Repr

/-- Whether a `PyResult` is an exception. -/
def PyResult.isExn {α : Type} : PyResult α → Bool
  | .ok _ => false
  | .exn _ => true

/-- The state of `Task.__init__` / the mutable fields of a `Task`.
`_plugin` and `_item` are reference identities; `_settings` is the
settings dict; `_accepted` is always assigned a Python bool literal by the
code, the other three flags store whatever value the accept data supplied
(the code stores `accept_data.get(...)` verbatim). -/
structure Task where
  plugin : Nat
  item : Nat
  settings : PyDict
  accepted : Bool
  visible : PyValue
  enabled : PyValue
  checked : PyValue
  deriving DecidableEq, Repr

/-- `Task.__init__(plugin, item, settings)`: stores the references and the
settings and initialises `_accepted = False`, `_visible = True`,
`_enabled = True`, `_checked = True`. -/
def Task.init (plugin item : Nat) (settings : PyDict) : Task :=
  { plugin := plugin
    item := item
    settings := settings
    accepted := false
    visible := .bool true
    enabled := .bool true
    checked := .bool true }

/-- The strategy-side and target-side collections of registered tasks
(the collections `plugin.add_task` and `item.add_task` append to). -/
structure Registry where
  pluginTasks : List Task
  itemTasks : List Task
  deriving DecidableEq, Repr

/-- Modelled from the spec: `plugin.add_task(task)` is not part of the
reviewed source; per the spec it registers the unit with the strategy-side
collection of bound units.  The call may fail (raise) — failure is
parametrised by `fails`; on a raise the collection is unchanged. -/
def plugin_add_task (fails : Bool) (task : Task) (r : Registry) :
    PyResult Unit × Registry :=
  if fails then (.exn "plugin.add_task raised", r)
  else (.ok (), { r with pluginTasks := r.pluginTasks ++ [task] })

/-- Modelled from the spec: `item.add_task(task)` is not part of the
reviewed source; per the spec it registers the unit with the target-side
collection of bound units.  The call may fail (raise) — failure is
parametrised by `fails`; on a raise the collection is unchanged. -/
def item_add_task (fails : Bool) (task : Task) (r : Registry) :
    PyResult Unit × Registry :=
  if fails then (.exn "item.add_task raised", r)
  else (.ok (), { r with itemTasks := r.itemTasks ++ [task] })

/-- `Task.create_task(plugin, item, settings)`: builds the task, then calls
`plugin.add_task(task)` and `item.add_task(task)` in that order, with no
exception handling, and returns the task.  A raise from either registration
propagates; side effects already performed persist. -/
def Task.create_task (pluginAddFails itemAddFails : Bool)
    (plugin item : Nat) (settings : PyDict) (r : Registry) :
    PyResult Task × Registry :=
  let task := Task.init plugin item settings
  match plugin_add_task pluginAddFails task r with
  | (.exn m, r1) => (.exn m, r1)
  | (.ok _, r1) =>
    match item_add_task itemAddFails task r1 with
    | (.exn m, r2) => (.exn m, r2)
    | (.ok _, r2) => (.ok task, r2)

/-- `Task.is_same_task_type(other_task)`: `self._plugin == other_task._plugin`
(plugin objects compare by reference identity). -/
def Task.is_same_task_type (t other_task : Task) : Bool :=
  t.plugin == other_task.plugin

/-- The state update performed by `Task.accept` once
`accept_data = self.plugin.run_accept(self.settings, self.item)` is in
hand: branch on the truthiness of `accept_data.get("accepted")`; on the
accepting branch store `accept_data.get("visible", True)` and
`accept_data.get("enabled", True)`, and only when `not self._accepted` set
`_accepted = True` and `_checked = accept_data.get("checked", True)`;
on the rejecting branch set `_accepted = False`, `_enabled = False`,
`_checked = False`. -/
def Task.accept_update (t : Task) (accept_data : PyDict) : Task :=
  if (PyDict.getD accept_data "accepted" PyValue.none).truthy then
    let t1 := { t with
      visible := PyDict.getD accept_data "visible" (.bool true)
      enabled := PyDict.getD accept_data "enabled" (.bool true) }
    if !t.accepted then
      { t1 with
        accepted := true
        checked := PyDict.getD accept_data "checked" (.bool true) }
    else t1
  else
    { t with accepted := false, enabled := .bool false, checked := .bool false }

/-- `Task.accept()`: calls `self.plugin.run_accept(self.settings, self.item)`
and applies the resulting state update.  The plugin's behaviour is the
external parameter `run_accept`. -/
def Task.accept (run_accept : PyDict → Nat → PyDict) (t : Task) : Task :=
  t.accept_update (run_accept t.settings t.item)

/-- `Task.validate()`: `return self.plugin.run_validate(self.settings,
self.item)` — the call's outcome (value or raise) is returned unchanged,
and the task state is untouched; the pair makes the final task state
explicit. -/
def Task.validate (run_validate : PyDict → Nat → PyResult PyValue)
    (t : Task) : PyResult PyValue × Task :=
  (run_validate t.settings t.item, t)

/-- `Task.publish()`: `self.plugin.run_publish(self.settings, self.item)` —
outcome propagates unchanged, task state untouched. -/
def Task.publish (run_publish : PyDict → Nat → PyResult Unit)
    (t : Task) : PyResult Unit × Task :=
  (run_publish t.settings t.item, t)

/-- `Task.finalize()`: `self.plugin.run_finalize(self.settings, self.item)` —
outcome propagates unchanged, task state untouched. -/
def Task.finalize (run_finalize : PyDict → Nat → PyResult Unit)
    (t : Task) : PyResult Unit × Task :=
  (run_finalize t.settings t.item, t)

/-- Assignment to the `settings` property: `self._settings = settings`,
a wholesale replacement of the mapping. -/
def Task.set_settings (t : Task) (settings : PyDict) : Task :=
  { t with settings := settings }

/-- C5: every task returned by the factory `Task.create_task`, before any
lifecycle operation runs on it, has `visible = True`, `enabled = True`,
`checked = True` and `accepted = False`. -/
theorem create_task_fresh_defaults (pf itf : Bool) (p i : Nat) (s : PyDict)
    (r : Registry) (task : Task) (rOut : Registry)
    (h : Task.create_task pf itf p i s r = (.ok task, rOut)) :
    task.visible = .bool true ∧ task.enabled = .bool true ∧
    task.checked = .bool true ∧ task.accepted = false := by
  cases pf <;> cases itf <;>
    simp [Task.create_task, plugin_add_task, item_add_task] at h ;
    simp [← h.1, Task.init]

/-- C5 witness: a concrete successful creation yields the default flags. -/
theorem create_task_fresh_defaults_witness :
    (Task.init 0 1 []).visible = .bool true ∧
    (Task.init 0 1 []).enabled = .bool true ∧
    (Task.init 0 1 []).checked = .bool true ∧
    (Task.init 0 1 []).accepted = false :=
  create_task_fresh_defaults false false 0 1 [] ⟨[], []⟩ (Task.init 0 1 [])
    ⟨[Task.init 0 1 []], [Task.init 0 1 []]⟩ (by decide)

/-- C7: `is_same_task_type` is true exactly when the two tasks are bound to
the same plugin instance, independently of their items or settings; it is a
pure function of the two task states. -/
theorem is_same_task_type_iff (t u : Task) :
    t.is_same_task_type u = true ↔ t.plugin = u.plugin := by
  simp [Task.is_same_task_type]

/-- C7 witness: two tasks sharing a plugin but differing in item and
settings compare as the same type. -/
theorem is_same_task_type_iff_witness :
    Task.is_same_task_type
      { plugin := 5, item := 0, settings := [("a", .int 1)],
        accepted := false, visible := .bool true, enabled := .bool true,
        checked := .bool true }
      { plugin := 5, item := 9, settings := [],
        accepted := true, visible := .bool false, enabled := .bool true,
        checked := .bool false } = true :=
  (is_same_task_type_iff _ _).mpr rfl

/-- C8: `validate` returns exactly the outcome of the plugin's
`run_validate` applied to the task's current settings and item — an
exception from the plugin propagates unchanged — and leaves the task state
untouched. -/
theorem validate_pass_through (run_validate : PyDict → Nat → PyResult PyValue)
    (t : Task) :
    (Task.validate run_validate t).1 = run_validate t.settings t.item ∧
    (Task.validate run_validate t).2 = t :=
  ⟨rfl, rfl⟩

/-- C9: assigning new settings replaces the mapping wholesale: the settings
read back equal the new mapping exactly, and a key absent from the new
mapping reads back as absent, whatever the old mapping bound it to. -/
theorem set_settings_replaces (t : Task) (s : PyDict) (k : String) :
    (Task.set_settings t s).settings = s ∧
    (PyDict.get s k = Option.none →
      PyDict.get (Task.set_settings t s).settings k = Option.none) := by
  exact ⟨rfl, fun h => h⟩

/-- C9 witness: replacing `{"old": 1}` by `{"new": 2}` leaves no binding
for `"old"`. -/
theorem set_settings_replaces_witness :
    (Task.set_settings
      { plugin := 0, item := 0, settings := [("old", .int 1)],
        accepted := false, visible := .bool true, enabled := .bool true,
        checked := .bool true } [("new", .int 2)]).settings
      = [("new", .int 2)] ∧
    PyDict.get (Task.set_settings
      { plugin := 0, item := 0, settings := [("old", .int 1)],
        accepted := false, visible := .bool true, enabled := .bool true,
        checked := .bool true } [("new", .int 2)]).settings "old"
      = Option.none :=
  ⟨(set_settings_replaces _ [("new", .int 2)] "old").1,
   (set_settings_replaces _ [("new", .int 2)] "old").2 (by decide)⟩

/-- C10: the branch `accept` takes is decided by Python truthiness of the
result's `accepted` entry (absent reads as `None`): the task ends accepted
exactly when that value is truthy; a non-zero number or non-empty string
is truthy, while `False`, `None`, `0` and `""` are falsy. -/
theorem accept_branches_on_truthiness (run_accept : PyDict → Nat → PyDict)
    (t : Task) :
    (Task.accept run_accept t).accepted
      = (PyDict.getD (run_accept t.settings t.item) "accepted"
          PyValue.none).truthy ∧
    PyValue.truthy (.int 2) = true ∧ PyValue.truthy (.str "x") = true ∧
    PyValue.truthy (.bool false) = false ∧ PyValue.truthy .none = false ∧
    PyValue.truthy (.int 0) = false ∧ PyValue.truthy (.str "") = false := by
  refine ⟨?_, rfl, by decide, rfl, rfl, rfl, by decide⟩
  unfold Task.accept Task.accept_update
  cases h : (PyDict.getD (run_accept t.settings t.item) "accepted"
      PyValue.none).truthy <;> simp [h] ;
  cases ht : t.accepted <;> simp [ht]

/-- C1 counterexample: with the strategy-side registration succeeding and
the target-side registration raising, `create_task` raises (creation fails)
but the freshly built task is left registered in the strategy-side
collection — partial registration is observable, contradicting the claim
that the unit is not left registered with the strategy. -/
theorem create_task_partial_registration_cex :
    (Task.create_task false true 0 1 [] ⟨[], []⟩).1.isExn = true ∧
    (Task.create_task false true 0 1 [] ⟨[], []⟩).2.pluginTasks
      = [Task.init 0 1 []] := by
  decide

/-- C1 (amended): if either registration call raises, `create_task` raises
as a whole and no task is returned; a strategy-side failure leaves both
collections unchanged; but a target-side failure leaves the unit already
registered with the strategy (and not with the target) — creation is not
atomic.  Both registrations succeeding yields the fresh task registered on
both sides. -/
theorem create_task_registration (pf itf : Bool) (p i : Nat) (s : PyDict)
    (r : Registry) :
    ((pf = true ∨ itf = true) →
      (Task.create_task pf itf p i s r).1.isExn = true) ∧
    (pf = true → (Task.create_task pf itf p i s r).2 = r) ∧
    (pf = false → itf = true →
      (Task.create_task pf itf p i s r).2.pluginTasks
          = r.pluginTasks ++ [Task.init p i s] ∧
      (Task.create_task pf itf p i s r).2.itemTasks = r.itemTasks) ∧
    (pf = false → itf = false →
      (Task.create_task pf itf p i s r).1 = .ok (Task.init p i s) ∧
      (Task.create_task pf itf p i s r).2.pluginTasks
          = r.pluginTasks ++ [Task.init p i s] ∧
      (Task.create_task pf itf p i s r).2.itemTasks
          = r.itemTasks ++ [Task.init p i s]) := by
  cases pf <;> cases itf <;>
    simp [Task.create_task, plugin_add_task, item_add_task, PyResult.isExn]

/-- C1 witness: the amended behaviour at a concrete target-side failure. -/
theorem create_task_registration_witness :
    (Task.create_task false true 2 3 [] ⟨[], []⟩).1.isExn = true ∧
    (Task.create_task false true 2 3 [] ⟨[], []⟩).2.pluginTasks
        = [Task.init 2 3 []] ∧
    (Task.create_task false true 2 3 [] ⟨[], []⟩).2.itemTasks = [] := by
  have h := create_task_registration false true 2 3 [] ⟨[], []⟩
  exact ⟨h.1 (Or.inr rfl), (h.2.2.1 rfl rfl).1, (h.2.2.1 rfl rfl).2⟩

/-- C2: re-accepting an already-accepted task (the result's `accepted`
entry is `True`) leaves `checked` untouched, while `visible` and `enabled`
are refreshed from the new result (defaulting to `True` when absent), and
the task stays accepted. -/
theorem accept_preserves_checked_when_accepted
    (run_accept : PyDict → Nat → PyDict) (t : Task)
    (h1 : t.accepted = true)
    (h2 : PyDict.get (run_accept t.settings t.item) "accepted"
        = some (.bool true)) :
    (Task.accept run_accept t).checked = t.checked ∧
    (Task.accept run_accept t).visible
      = PyDict.getD (run_accept t.settings t.item) "visible" (.bool true) ∧
    (Task.accept run_accept t).enabled
      = PyDict.getD (run_accept t.settings t.item) "enabled" (.bool true) ∧
    (Task.accept run_accept t).accepted = true := by
  unfold Task.accept Task.accept_update
  simp [PyDict.getD, h1, h2, PyValue.truthy]

/-- C2 witness: a task whose `checked` the user toggled keeps that value
across a re-acceptance that changes `visible` and `enabled`. -/
theorem accept_preserves_checked_when_accepted_witness :
    (Task.accept
        (fun _ _ => [("accepted", .bool true), ("visible", .bool false),
          ("checked", .bool false)])
        { plugin := 0, item := 0, settings := [], accepted := true,
          visible := .bool true, enabled := .bool true,
          checked := .bool true }).checked = .bool true ∧
    (Task.accept
        (fun _ _ => [("accepted", .bool true), ("visible", .bool false),
          ("checked", .bool false)])
        { plugin := 0, item := 0, settings := [], accepted := true,
          visible := .bool true, enabled := .bool true,
          checked := .bool true }).visible = .bool false ∧
    (Task.accept
        (fun _ _ => [("accepted", .bool true), ("visible", .bool false),
          ("checked", .bool false)])
        { plugin := 0, item := 0, settings := [], accepted := true,
          visible := .bool true, enabled := .bool true,
          checked := .bool true }).enabled = .bool true := by
  have h := accept_preserves_checked_when_accepted
    (fun _ _ => [("accepted", .bool true), ("visible", .bool false),
      ("checked", .bool false)])
    { plugin := 0, item := 0, settings := [], accepted := true,
      visible := .bool true, enabled := .bool true, checked := .bool true }
    rfl (by decide)
  exact ⟨h.1, by rw [h.2.1]; decide, by rw [h.2.2.1]; decide⟩

/-- C3: when the result's `accepted` entry is `False`, `accept` on any
prior state ends with `accepted = False`, `enabled = False`,
`checked = False`, and `visible` unchanged. -/
theorem accept_rejection_forces_off (run_accept : PyDict → Nat → PyDict)
    (t : Task)
    (h : PyDict.get (run_accept t.settings t.item) "accepted"
        = some (.bool false)) :
    (Task.accept run_accept t).accepted = false ∧
    (Task.accept run_accept t).enabled = .bool false ∧
    (Task.accept run_accept t).checked = .bool false ∧
    (Task.accept run_accept t).visible = t.visible := by
  unfold Task.accept Task.accept_update
  simp [PyDict.getD, h, PyValue.truthy]

/-- C3 witness: rejecting a previously accepted, visible-off task turns it
off and keeps `visible` as it was. -/
theorem accept_rejection_forces_off_witness :
    (Task.accept (fun _ _ => [("accepted", .bool false)])
        { plugin := 0, item := 0, settings := [], accepted := true,
          visible := .bool false, enabled := .bool true,
          checked := .bool true }).accepted = false ∧
    (Task.accept (fun _ _ => [("accepted", .bool false)])
        { plugin := 0, item := 0, settings := [], accepted := true,
          visible := .bool false, enabled := .bool true,
          checked := .bool true }).enabled = .bool false ∧
    (Task.accept (fun _ _ => [("accepted", .bool false)])
        { plugin := 0, item := 0, settings := [], accepted := true,
          visible := .bool false, enabled := .bool true,
          checked := .bool true }).checked = .bool false ∧
    (Task.accept (fun _ _ => [("accepted", .bool false)])
        { plugin := 0, item := 0, settings := [], accepted := true,
          visible := .bool false, enabled := .bool true,
          checked := .bool true }).visible = .bool false :=
  accept_rejection_forces_off (fun _ _ => [("accepted", .bool false)])
    { plugin := 0, item := 0, settings := [], accepted := true,
      visible := .bool false, enabled := .bool true, checked := .bool true }
    (by decide)

/-- C4: accepting a not-yet-accepted task with a result whose `accepted`
entry is `True` sets `visible`, `enabled` and `checked` to the result's
entries when present and to `True` when absent, and sets
`accepted = True`. -/
theorem accept_fresh_sets_fields (run_accept : PyDict → Nat → PyDict)
    (t : Task) (h1 : t.accepted = false)
    (h2 : PyDict.get (run_accept t.settings t.item) "accepted"
        = some (.bool true)) :
    (Task.accept run_accept t).visible
      = PyDict.getD (run_accept t.settings t.item) "visible" (.bool true) ∧
    (Task.accept run_accept t).enabled
      = PyDict.getD (run_accept t.settings t.item) "enabled" (.bool true) ∧
    (Task.accept run_accept t).checked
      = PyDict.getD (run_accept t.settings t.item) "checked" (.bool true) ∧
    (Task.accept run_accept t).accepted = true := by
  unfold Task.accept Task.accept_update
  simp [PyDict.getD, h1, h2, PyValue.truthy]

/-- C4 witness: a fresh task accepted by a result containing only
`{"accepted": True}` ends with `visible = enabled = checked = True` and
`accepted = True`. -/
theorem accept_fresh_sets_fields_witness :
    (Task.accept (fun _ _ => [("accepted", .bool true)])
        (Task.init 0 0 [])).visible = .bool true ∧
    (Task.accept (fun _ _ => [("accepted", .bool true)])
        (Task.init 0 0 [])).enabled = .bool true ∧
    (Task.accept (fun _ _ => [("accepted", .bool true)])
        (Task.init 0 0 [])).checked = .bool true ∧
    (Task.accept (fun _ _ => [("accepted", .bool true)])
        (Task.init 0 0 [])).accepted = true := by
  have h := accept_fresh_sets_fields (fun _ _ => [("accepted", .bool true)])
    (Task.init 0 0 []) rfl (by decide)
  exact ⟨by rw [h.1]; decide, by rw [h.2.1]; decide, by rw [h.2.2.1]; decide,
    h.2.2.2⟩

/-- C6: when the result lacks an `accepted` entry entirely, `accept` is
exactly a rejection — `accepted = False`, `enabled = False`,
`checked = False`, every other field (including `visible`) unchanged — and
the (total) update raises no error. -/
theorem accept_missing_accepted_is_rejection
    (run_accept : PyDict → Nat → PyDict) (t : Task)
    (h : PyDict.get (run_accept t.settings t.item) "accepted"
        = Option.none) :
    Task.accept run_accept t
      = { t with accepted := false, enabled := .bool false,
                 checked := .bool false } := by
  unfold Task.accept Task.accept_update
  simp [PyDict.getD, h, PyValue.truthy]

/-- C6 witness: an empty accept result rejects a fresh task without
touching `visible`. -/
theorem accept_missing_accepted_is_rejection_witness :
    Task.accept (fun _ _ => []) (Task.init 4 4 [])
      = { (Task.init 4 4 []) with accepted := false,
                                  enabled := .bool false,
                                  checked := .bool false } :=
  accept_missing_accepted_is_rejection (fun _ _ => []) (Task.init 4 4 [])
    (by decide)

end Processing
